import Mathlib

/-!
# Verification of `RunTaskUseCase` (backend/src/task/application/use_cases/run_task.py)

Shallow embedding of the task-orchestration use case: the orchestrator starts a
remote job, polls for its result, persists the outcome and fires an optional
webhook.  External collaborators (remote runner, token refresher, persistence
gateway, HTTP client) are modelled as oracles supplied in an `Env`; every
observable action is recorded in a chronological list of `Effect`s.
-/

namespace RunTask

set_option maxRecDepth 40000

/-- Domain task status (`TaskStatus` enum in `src/task/domain/entities.py`,
referenced from `run_task.py`). -/
inductive TaskStatus
  | pending
  | running
  | finished
  | failed
  deriving DecidableEq, Repr

/-- The mapped remote outcome (`TaskResultDTO`): status plus optional result
payload and optional error message.  The opaque result payload is modelled as a
`String`. -/
structure TaskResultDTO where
  status : TaskStatus
  result : Option String := none
  error : Option String := none
  deriving DecidableEq, Repr

/-- The update record sent to `uow.tasks.update_by_pk`.  `_store_error` builds
`TaskUpdate(status=..., error=...)` leaving the `result` field unset, while
`_store_result` also passes `result`; the outer `Option` distinguishes an unset
field (`none`) from an explicitly passed value. -/
structure TaskUpdate where
  status : TaskStatus
  error : Option String
  result : Option (Option String) := none
  deriving DecidableEq, Repr

/-- Persisted task record (the fields of the `Task` entity that this use case
reads back: `TaskResultDTO(**task.model_dump())`). -/
structure Task where
  status : TaskStatus
  result : Option String
  error : Option String
  deriving DecidableEq, Repr

/-- Webhook body `TaskReadDTO(id=task_id, **result.model_dump())`; the task id
is modelled as a `Nat`. -/
structure TaskReadDTO where
  id : Nat
  status : TaskStatus
  result : Option String
  error : Option String
  deriving DecidableEq, Repr

/-- The caller-supplied creation parameters that `execute` consumes: only the
webhook URL is inspected by the orchestrator itself; the remaining parameters
are forwarded opaquely to the runner and are modelled as a single `Nat`. -/
structure TaskCreateDTO where
  params : Nat := 0
  webhook_url : Option String := none
  deriving DecidableEq, Repr

/-- Bearer credential (`AccountTokenDTO`), opaque. -/
abbrev Token := Nat

/-- Outcome of one attempt of `runner.start` under the `asyncio.wait_for`
ceiling: a raw response (opaque `Nat`), `IntegrationUnauthorizedExeception`,
`asyncio.TimeoutError`, `IntegrationRequestException`, or any other
exception. -/
inductive StartOutcome
  | ok (resp : Nat)
  | unauthorized
  | timeout
  | requestError (msg : String)
  | internalError (msg : String)
  deriving DecidableEq, Repr

/-- Outcome of one `runner.get_result` poll, already pushed through the pure
`IntegrationResponseToDomainMapper().map_one`: either a mapped domain result or
`IntegrationUnauthorizedExeception`. -/
inductive PollOutcome
  | ok (r : TaskResultDTO)
  | unauthorized
  deriving DecidableEq, Repr

/-- The external world: outcome of the n-th start attempt, outcome of the n-th
poll, and the token refresher (`RefreshAccountTokensUseCase.execute`). -/
structure Env where
  startOutcomes : Nat → StartOutcome
  polls : Nat → PollOutcome
  refreshTok : Token → Token

/-- Mutable orchestrator state threaded through one `execute` invocation:
`self.token`, the credential installed in the runner client
(`set_client_token`), how many start attempts and polls have been consumed
(indices into the oracles), and the persisted task record. -/
structure OrchState where
  token : Token
  clientToken : Token
  startIdx : Nat
  pollIdx : Nat
  task : Task
  deriving DecidableEq, Repr

/-- Observable effects, recorded in chronological order. -/
inductive Effect
  | startCall (tok : Token)
  | sleep
  | pollCall (tok : Token)
  | refreshCall (oldTok newTok : Token)
  | persist (taskId : Nat) (u : TaskUpdate)
  | webhook (url : String) (body : TaskReadDTO)
  deriving DecidableEq, Repr

/-- `TIMEOUT_SECONDS = 5 * 60` (class attribute of `RunTaskUseCase`). -/
def TIMEOUT_SECONDS : Nat := 5 * 60

/-- Modelled from the spec: the Persistence Gateway's
`update_by_pk(task_id, {status, error?, result?}) → Task` (the repository
implementation is not under `src/`).  Fields present in the update overwrite
the record; an unset `result` field leaves the stored result unchanged. -/
def applyUpdate (t : Task) (u : TaskUpdate) : Task :=
  { t with
    status := u.status
    error := u.error
    result := u.result.getD t.result }

/-- `TaskResultDTO(**task.model_dump())`: project the persisted record back to
a result DTO. -/
def taskToResultDTO (t : Task) : TaskResultDTO :=
  { status := t.status, result := t.result, error := t.error }

/-- One attempt of the guarded `runner.start` call inside `_run`: either a
returned pair (mirroring the `tuple[TResponse | None, None | str]` return) or
the caught unauthorized exception that triggers refresh-and-retry. -/
inductive RunStep
  | done (ret : Option Nat × Option String)
  | unauthorized
  deriving DecidableEq, Repr

/-- Classify the outcome of the next start attempt exactly as the
`try/except` ladder of `_run` does. -/
def runAttempt (env : Env) (s : OrchState) : RunStep :=
  match env.startOutcomes s.startIdx with
  | StartOutcome.ok r => RunStep.done (some r, none)
  | StartOutcome.unauthorized => RunStep.unauthorized
  | StartOutcome.timeout => RunStep.done (none, some "Generation run error: Timeout")
  | StartOutcome.requestError m => RunStep.done (none, some ("Request error: " ++ m))
  | StartOutcome.internalError m => RunStep.done (none, some ("Internal exception: " ++ m))

/-- `RunTaskUseCase._run`: invoke `runner.start` under the timeout ceiling; on
unauthorized, refresh the credential, install it into the client and retry the
same call recursively.  The recursion in the Python source is unbounded, so it
is given explicit `fuel`; `none` models the diverging run that never leaves the
unauthorized-refresh cycle. -/
def runLoop (env : Env) :
    Nat → OrchState → Option ((Option Nat × Option String) × OrchState × List Effect)
  | fuel, s =>
    let eff := Effect.startCall s.clientToken
    let s1 : OrchState := { s with startIdx := s.startIdx + 1 }
    match runAttempt env s, fuel with
    | RunStep.done ret, _ => some (ret, s1, [eff])
    | RunStep.unauthorized, 0 => none
    | RunStep.unauthorized, Nat.succ f =>
      let t := env.refreshTok s1.token
      let s2 : OrchState := { s1 with token := t, clientToken := t }
      match runLoop env f s2 with
      | none => none
      | some (ret, s3, tr) => some (ret, s3, eff :: Effect.refreshCall s1.token t :: tr)

/-- Result of one full pass of the `for _ in range(TIMEOUT_SECONDS)` loop in
`_wait_for_result`: early success, budget exhausted, or an unauthorized poll
that aborts the pass. -/
inductive PassRes
  | finished (r : TaskResultDTO)
  | timeout
  | unauth
  deriving DecidableEq, Repr

/-- The body of `_wait_for_result`'s `for` loop with `n` iterations remaining:
sleep one time unit, poll, map the response; a mapped status of `finished`
returns immediately, an unauthorized exception aborts the pass, anything else
continues. -/
def waitPass (env : Env) : Nat → OrchState → PassRes × OrchState × List Effect
  | 0, s => (PassRes.timeout, s, [])
  | Nat.succ n, s =>
    let tok := s.clientToken
    let s1 : OrchState := { s with pollIdx := s.pollIdx + 1 }
    match env.polls s.pollIdx with
    | PollOutcome.unauthorized => (PassRes.unauth, s1, [Effect.sleep, Effect.pollCall tok])
    | PollOutcome.ok r =>
      if r.status = TaskStatus.finished then
        (PassRes.finished r, s1, [Effect.sleep, Effect.pollCall tok])
      else
        match waitPass env n s1 with
        | (res, s2, tr) => (res, s2, Effect.sleep :: Effect.pollCall tok :: tr)

/-- `RunTaskUseCase._wait_for_result`: run the poll loop with the full
`TIMEOUT_SECONDS` budget; on an unauthorized poll, refresh the credential,
install it, and restart the whole loop from iteration 0 (the tail-recursive
`return await self._wait_for_result(task_id)`).  The restart recursion is
fuelled like `runLoop`. -/
def wait_for_result (env : Env) :
    Nat → OrchState → Option ((Option TaskResultDTO × Option String) × OrchState × List Effect)
  | fuel, s =>
    match waitPass env TIMEOUT_SECONDS s, fuel with
    | (PassRes.finished r, s1, tr), _ => some ((some r, none), s1, tr)
    | (PassRes.timeout, s1, tr), _ => some ((none, some "Timeout"), s1, tr)
    | (PassRes.unauth, _, _), 0 => none
    | (PassRes.unauth, s1, tr), Nat.succ f =>
      let t := env.refreshTok s1.token
      let s2 : OrchState := { s1 with token := t, clientToken := t }
      match wait_for_result env f s2 with
      | none => none
      | some (ret, s3, tr2) => some (ret, s3, tr ++ Effect.refreshCall s1.token t :: tr2)

/-- `RunTaskUseCase._store_result`: persist status, error and result from the
mapped outcome and return the updated record. -/
def store_result (s : OrchState) (taskId : Nat) (r : TaskResultDTO) :
    Task × OrchState × List Effect :=
  let u : TaskUpdate := { status := r.status, error := r.error, result := some r.result }
  let t := applyUpdate s.task u
  (t, { s with task := t }, [Effect.persist taskId u])

/-- `RunTaskUseCase._store_error`: persist only status and error (the `result`
field of the update is left unset) and return the updated record. -/
def store_error (s : OrchState) (taskId : Nat) (status : TaskStatus)
    (error : Option String) : Task × OrchState × List Effect :=
  let u : TaskUpdate := { status := status, error := error, result := none }
  let t := applyUpdate s.task u
  (t, { s with task := t }, [Effect.persist taskId u])

/-- `RunTaskUseCase._send_webhook`: no-op when the webhook URL is absent,
otherwise a single POST of `TaskReadDTO(id=task_id, **result.model_dump())`. -/
def send_webhook (taskId : Nat) (r : TaskResultDTO) (url : Option String) : List Effect :=
  match url with
  | none => []
  | some u =>
    [Effect.webhook u { id := taskId, status := r.status, result := r.result, error := r.error }]

/-- `RunTaskUseCase.execute`: run, then on error persist failed + webhook;
otherwise wait for the result, on error persist failed + webhook; otherwise
persist the mapped result and fire the webhook.  Returns the final state and
the chronological effect trace; `none` models a diverging or crashing
invocation (exhausted refresh fuel, or `_store_result` dereferencing a `None`
result). -/
def execute (env : Env) (fuelRun fuelWait : Nat) (taskId : Nat) (dto : TaskCreateDTO)
    (s : OrchState) : Option (OrchState × List Effect) :=
  match runLoop env fuelRun s with
  | none => none
  | some ((_, some err), s1, tr1) =>
    match store_error s1 taskId TaskStatus.failed (some err) with
    | (task, s2, tr2) =>
      some (s2, tr1 ++ tr2 ++ send_webhook taskId (taskToResultDTO task) dto.webhook_url)
  | some ((_, none), s1, tr1) =>
    match wait_for_result env fuelWait s1 with
    | none => none
    | some ((_, some err), s2, tr2) =>
      match store_error s2 taskId TaskStatus.failed (some err) with
      | (task, s3, tr3) =>
        some (s3, tr1 ++ tr2 ++ tr3 ++ send_webhook taskId (taskToResultDTO task) dto.webhook_url)
    | some ((some r, none), s2, tr2) =>
      match store_result s2 taskId r with
      | (task, s3, tr3) =>
        some (s3, tr1 ++ tr2 ++ tr3 ++ send_webhook taskId (taskToResultDTO task) dto.webhook_url)
    | some ((none, none), _, _) => none

/-! ## Effect classifiers -/

def isStartE : Effect → Bool
  | Effect.startCall _ => true
  | _ => false

def isSleepE : Effect → Bool
  | Effect.sleep => true
  | _ => false

def isPollE : Effect → Bool
  | Effect.pollCall _ => true
  | _ => false

def isRefreshE : Effect → Bool
  | Effect.refreshCall _ _ => true
  | _ => false

def isPersistE : Effect → Bool
  | Effect.persist _ _ => true
  | _ => false

def isWebhookE : Effect → Bool
  | Effect.webhook _ _ => true
  | _ => false

/-- Effects that `_run` may emit. -/
def isRunE (e : Effect) : Bool := isStartE e || isRefreshE e

/-- Effects that `_wait_for_result` may emit. -/
def isWaitE (e : Effect) : Bool := isSleepE e || isPollE e || isRefreshE e

/-- A trace that consists of complete poll iterations, each a sleep followed by
one poll call (the shape of a `_wait_for_result` trace with no refresh). -/
def isPollTrace : List Effect → Bool
  | [] => true
  | Effect.sleep :: Effect.pollCall _ :: rest => isPollTrace rest
  | _ => false

/-! ## Unfolding equations -/

theorem runLoop_done_eq (env : Env) (fuel : Nat) (s : OrchState)
    (ret : Option Nat × Option String) (h : runAttempt env s = RunStep.done ret) :
    runLoop env fuel s =
      some (ret, { s with startIdx := s.startIdx + 1 }, [Effect.startCall s.clientToken]) := by
  cases fuel <;> simp [runLoop, h]

theorem runLoop_unauth_zero_eq (env : Env) (s : OrchState)
    (h : runAttempt env s = RunStep.unauthorized) :
    runLoop env 0 s = none := by
  simp [runLoop, h]

theorem runLoop_unauth_succ_eq (env : Env) (f : Nat) (s : OrchState)
    (h : runAttempt env s = RunStep.unauthorized) :
    runLoop env (f + 1) s =
      (match runLoop env f
          { s with startIdx := s.startIdx + 1, token := env.refreshTok s.token,
                   clientToken := env.refreshTok s.token } with
       | none => none
       | some (ret, s3, tr) =>
         some (ret, s3,
           Effect.startCall s.clientToken ::
             Effect.refreshCall s.token (env.refreshTok s.token) :: tr)) := by
  simp [runLoop, h]

theorem waitPass_zero_eq (env : Env) (s : OrchState) :
    waitPass env 0 s = (PassRes.timeout, s, []) := rfl

theorem waitPass_unauth_eq (env : Env) (n : Nat) (s : OrchState)
    (h : env.polls s.pollIdx = PollOutcome.unauthorized) :
    waitPass env (n + 1) s =
      (PassRes.unauth, { s with pollIdx := s.pollIdx + 1 },
        [Effect.sleep, Effect.pollCall s.clientToken]) := by
  simp [waitPass, h]

theorem waitPass_finished_eq (env : Env) (n : Nat) (s : OrchState) (r : TaskResultDTO)
    (h : env.polls s.pollIdx = PollOutcome.ok r) (hf : r.status = TaskStatus.finished) :
    waitPass env (n + 1) s =
      (PassRes.finished r, { s with pollIdx := s.pollIdx + 1 },
        [Effect.sleep, Effect.pollCall s.clientToken]) := by
  simp [waitPass, h, hf]

theorem waitPass_cont_eq (env : Env) (n : Nat) (s : OrchState) (r : TaskResultDTO)
    (h : env.polls s.pollIdx = PollOutcome.ok r) (hf : r.status ≠ TaskStatus.finished) :
    waitPass env (n + 1) s =
      (match waitPass env n { s with pollIdx := s.pollIdx + 1 } with
       | (res, s2, tr) => (res, s2, Effect.sleep :: Effect.pollCall s.clientToken :: tr)) := by
  simp [waitPass, h, hf]

theorem wait_for_result_finished_eq (env : Env) (fuel : Nat) (s s1 : OrchState)
    (r : TaskResultDTO) (tr : List Effect)
    (h : waitPass env TIMEOUT_SECONDS s = (PassRes.finished r, s1, tr)) :
    wait_for_result env fuel s = some ((some r, none), s1, tr) := by
  cases fuel <;> rw [wait_for_result.eq_def] <;> dsimp only <;> rw [h]

theorem wait_for_result_timeout_eq (env : Env) (fuel : Nat) (s s1 : OrchState)
    (tr : List Effect) (h : waitPass env TIMEOUT_SECONDS s = (PassRes.timeout, s1, tr)) :
    wait_for_result env fuel s = some ((none, some "Timeout"), s1, tr) := by
  cases fuel <;> rw [wait_for_result.eq_def] <;> dsimp only <;> rw [h]

theorem wait_for_result_unauth_zero_eq (env : Env) (s s1 : OrchState) (tr : List Effect)
    (h : waitPass env TIMEOUT_SECONDS s = (PassRes.unauth, s1, tr)) :
    wait_for_result env 0 s = none := by
  rw [wait_for_result.eq_def]
  dsimp only
  rw [h]

theorem wait_for_result_unauth_succ_eq (env : Env) (f : Nat) (s s1 : OrchState)
    (tr : List Effect) (h : waitPass env TIMEOUT_SECONDS s = (PassRes.unauth, s1, tr)) :
    wait_for_result env (f + 1) s =
      (match wait_for_result env f
          { s1 with token := env.refreshTok s1.token,
                    clientToken := env.refreshTok s1.token } with
       | none => none
       | some (ret, s3, tr2) =>
         some (ret, s3, tr ++ Effect.refreshCall s1.token (env.refreshTok s1.token) :: tr2)) := by
  rw [wait_for_result.eq_def]
  dsimp only
  rw [h]

/-! ## Generic trace lemmas -/

theorem filter_nil_of_all (p q : Effect → Bool) (hpq : ∀ e, p e = true → q e = false) :
    ∀ tr : List Effect, tr.all p = true → tr.filter q = [] := by
  intro tr
  induction tr with
  | nil => intro _; rfl
  | cons e tl ih =>
    intro htr
    rw [List.all_cons, Bool.and_eq_true] at htr
    simp [List.filter_cons, hpq e htr.1, ih htr.2]

theorem countP_nil_of_all (p q : Effect → Bool) (hpq : ∀ e, p e = true → q e = false)
    (tr : List Effect) (htr : tr.all p = true) : tr.countP q = 0 := by
  rw [List.countP_eq_length_filter, filter_nil_of_all p q hpq tr htr]
  rfl

theorem runE_not_persist (e : Effect) (h : isRunE e = true) : isPersistE e = false := by
  cases e <;> simp_all [isRunE, isStartE, isRefreshE, isPersistE]

theorem runE_not_webhook (e : Effect) (h : isRunE e = true) : isWebhookE e = false := by
  cases e <;> simp_all [isRunE, isStartE, isRefreshE, isWebhookE]

theorem waitE_not_persist (e : Effect) (h : isWaitE e = true) : isPersistE e = false := by
  cases e <;> simp_all [isWaitE, isSleepE, isPollE, isRefreshE, isPersistE]

theorem waitE_not_webhook (e : Effect) (h : isWaitE e = true) : isWebhookE e = false := by
  cases e <;> simp_all [isWaitE, isSleepE, isPollE, isRefreshE, isWebhookE]

/-! ## Lemmas about `_run` -/

theorem runAttempt_shape (env : Env) (s : OrchState) (a : Option Nat) (b : Option String)
    (h : runAttempt env s = RunStep.done (a, b)) :
    ((∃ r, a = some r) ∧ b = none) ∨ (a = none ∧ ∃ m, b = some m) := by
  cases hso : env.startOutcomes s.startIdx <;> simp [runAttempt, hso] at h <;>
    simp [← h.1, ← h.2]

theorem runLoop_all_run (env : Env) :
    ∀ (fuel : Nat) (s : OrchState) (ret : Option Nat × Option String) (s' : OrchState)
      (tr : List Effect), runLoop env fuel s = some (ret, s', tr) → tr.all isRunE = true := by
  intro fuel
  induction fuel with
  | zero =>
    intro s ret s' tr h
    cases hA : runAttempt env s with
    | done ret' =>
      rw [runLoop_done_eq env 0 s ret' hA] at h
      simp only [Option.some.injEq, Prod.mk.injEq] at h
      rw [← h.2.2]
      simp [isRunE, isStartE]
    | unauthorized =>
      rw [runLoop_unauth_zero_eq env s hA] at h
      exact absurd h (by simp)
  | succ f ih =>
    intro s ret s' tr h
    cases hA : runAttempt env s with
    | done ret' =>
      rw [runLoop_done_eq env (f + 1) s ret' hA] at h
      simp only [Option.some.injEq, Prod.mk.injEq] at h
      rw [← h.2.2]
      simp [isRunE, isStartE]
    | unauthorized =>
      rw [runLoop_unauth_succ_eq env f s hA] at h
      rcases hr : runLoop env f
          { s with startIdx := s.startIdx + 1, token := env.refreshTok s.token,
                   clientToken := env.refreshTok s.token } with _ | ⟨ret2, s3, tr2⟩
      · rw [hr] at h
        exact absurd h (by simp)
      · rw [hr] at h
        simp only [Option.some.injEq, Prod.mk.injEq] at h
        rw [← h.2.2]
        have htl := ih _ ret2 s3 tr2 hr
        simp [isRunE, isStartE, isRefreshE, htl]

theorem runLoop_shape (env : Env) :
    ∀ (fuel : Nat) (s : OrchState) (a : Option Nat) (b : Option String) (s' : OrchState)
      (tr : List Effect), runLoop env fuel s = some ((a, b), s', tr) →
      ((∃ r, a = some r) ∧ b = none) ∨ (a = none ∧ ∃ m, b = some m) := by
  intro fuel
  induction fuel with
  | zero =>
    intro s a b s' tr h
    cases hA : runAttempt env s with
    | done ret' =>
      rw [runLoop_done_eq env 0 s ret' hA] at h
      simp only [Option.some.injEq, Prod.mk.injEq] at h
      rw [h.1] at hA
      exact runAttempt_shape env s a b hA
    | unauthorized =>
      rw [runLoop_unauth_zero_eq env s hA] at h
      exact absurd h (by simp)
  | succ f ih =>
    intro s a b s' tr h
    cases hA : runAttempt env s with
    | done ret' =>
      rw [runLoop_done_eq env (f + 1) s ret' hA] at h
      simp only [Option.some.injEq, Prod.mk.injEq] at h
      rw [h.1] at hA
      exact runAttempt_shape env s a b hA
    | unauthorized =>
      rw [runLoop_unauth_succ_eq env f s hA] at h
      rcases hr : runLoop env f
          { s with startIdx := s.startIdx + 1, token := env.refreshTok s.token,
                   clientToken := env.refreshTok s.token } with _ | ⟨⟨a2, b2⟩, s3, tr2⟩
      · rw [hr] at h
        exact absurd h (by simp)
      · rw [hr] at h
        simp only [Option.some.injEq, Prod.mk.injEq] at h
        obtain ⟨⟨ha, hb⟩, _, _⟩ := h
        rw [← ha, ← hb]
        exact ih _ a2 b2 s3 tr2 hr

/-! ## Lemmas about `_wait_for_result` -/

theorem waitPass_all_wait (env : Env) :
    ∀ (n : Nat) (s : OrchState), ((waitPass env n s).2.2).all isWaitE = true := by
  intro n
  induction n with
  | zero => intro s; simp [waitPass]
  | succ n ih =>
    intro s
    cases hp : env.polls s.pollIdx with
    | unauthorized =>
      rw [waitPass_unauth_eq env n s hp]
      simp [isWaitE, isSleepE, isPollE]
    | ok r =>
      by_cases hf : r.status = TaskStatus.finished
      · rw [waitPass_finished_eq env n s r hp hf]
        simp [isWaitE, isSleepE, isPollE]
      · rw [waitPass_cont_eq env n s r hp hf]
        rcases hw : waitPass env n { s with pollIdx := s.pollIdx + 1 } with ⟨res, s2, tr⟩
        have htl := ih { s with pollIdx := s.pollIdx + 1 }
        rw [hw] at htl
        simp only at htl
        simp [isWaitE, isSleepE, isPollE, htl]

theorem waitPass_finished_status (env : Env) :
    ∀ (n : Nat) (s : OrchState) (r : TaskResultDTO) (s1 : OrchState) (tr : List Effect),
      waitPass env n s = (PassRes.finished r, s1, tr) → r.status = TaskStatus.finished := by
  intro n
  induction n with
  | zero =>
    intro s r s1 tr h
    rw [waitPass_zero_eq] at h
    exact absurd h (by simp)
  | succ n ih =>
    intro s r s1 tr h
    cases hp : env.polls s.pollIdx with
    | unauthorized =>
      rw [waitPass_unauth_eq env n s hp] at h
      exact absurd h (by simp)
    | ok r' =>
      by_cases hf : r'.status = TaskStatus.finished
      · rw [waitPass_finished_eq env n s r' hp hf] at h
        simp only [Prod.mk.injEq, PassRes.finished.injEq] at h
        rw [← h.1]
        exact hf
      · rw [waitPass_cont_eq env n s r' hp hf] at h
        rcases hw : waitPass env n { s with pollIdx := s.pollIdx + 1 } with ⟨res, s2, tr2⟩
        rw [hw] at h
        simp only [Prod.mk.injEq] at h
        obtain ⟨h1, _, _⟩ := h
        rw [h1] at hw
        exact ih _ r s2 tr2 hw

theorem wait_for_result_all_wait (env : Env) :
    ∀ (fuel : Nat) (s : OrchState) (ret : Option TaskResultDTO × Option String)
      (s' : OrchState) (tr : List Effect),
      wait_for_result env fuel s = some (ret, s', tr) → tr.all isWaitE = true := by
  intro fuel
  induction fuel with
  | zero =>
    intro s ret s' tr h
    rcases hw : waitPass env TIMEOUT_SECONDS s with ⟨res, s1, tr1⟩
    have hall := waitPass_all_wait env TIMEOUT_SECONDS s
    rw [hw] at hall
    simp only at hall
    cases res with
    | finished r =>
      rw [wait_for_result_finished_eq env 0 s s1 r tr1 hw] at h
      simp only [Option.some.injEq, Prod.mk.injEq] at h
      rw [← h.2.2]
      exact hall
    | timeout =>
      rw [wait_for_result_timeout_eq env 0 s s1 tr1 hw] at h
      simp only [Option.some.injEq, Prod.mk.injEq] at h
      rw [← h.2.2]
      exact hall
    | unauth =>
      rw [wait_for_result_unauth_zero_eq env s s1 tr1 hw] at h
      exact absurd h (by simp)
  | succ f ih =>
    intro s ret s' tr h
    rcases hw : waitPass env TIMEOUT_SECONDS s with ⟨res, s1, tr1⟩
    have hall := waitPass_all_wait env TIMEOUT_SECONDS s
    rw [hw] at hall
    simp only at hall
    cases res with
    | finished r =>
      rw [wait_for_result_finished_eq env (f + 1) s s1 r tr1 hw] at h
      simp only [Option.some.injEq, Prod.mk.injEq] at h
      rw [← h.2.2]
      exact hall
    | timeout =>
      rw [wait_for_result_timeout_eq env (f + 1) s s1 tr1 hw] at h
      simp only [Option.some.injEq, Prod.mk.injEq] at h
      rw [← h.2.2]
      exact hall
    | unauth =>
      rw [wait_for_result_unauth_succ_eq env f s s1 tr1 hw] at h
      rcases hv : wait_for_result env f
          { s1 with token := env.refreshTok s1.token,
                    clientToken := env.refreshTok s1.token } with _ | ⟨ret2, s3, tr2⟩
      · rw [hv] at h
        exact absurd h (by simp)
      · rw [hv] at h
        simp only [Option.some.injEq, Prod.mk.injEq] at h
        rw [← h.2.2]
        have htl := ih _ ret2 s3 tr2 hv
        simp [List.all_append, List.all_cons, hall, htl, isWaitE, isRefreshE]

theorem wait_for_result_shape (env : Env) :
    ∀ (fuel : Nat) (s : OrchState) (a : Option TaskResultDTO) (b : Option String)
      (s' : OrchState) (tr : List Effect),
      wait_for_result env fuel s = some ((a, b), s', tr) →
      (∃ r, a = some r ∧ b = none ∧ r.status = TaskStatus.finished) ∨
        (a = none ∧ b = some "Timeout") := by
  intro fuel
  induction fuel with
  | zero =>
    intro s a b s' tr h
    rcases hw : waitPass env TIMEOUT_SECONDS s with ⟨res, s1, tr1⟩
    cases res with
    | finished r =>
      rw [wait_for_result_finished_eq env 0 s s1 r tr1 hw] at h
      simp only [Option.some.injEq, Prod.mk.injEq] at h
      refine Or.inl ⟨r, ?_, ?_, waitPass_finished_status env TIMEOUT_SECONDS s r s1 tr1 hw⟩
      · exact h.1.1.symm
      · exact h.1.2.symm
    | timeout =>
      rw [wait_for_result_timeout_eq env 0 s s1 tr1 hw] at h
      simp only [Option.some.injEq, Prod.mk.injEq] at h
      exact Or.inr ⟨h.1.1.symm, h.1.2.symm⟩
    | unauth =>
      rw [wait_for_result_unauth_zero_eq env s s1 tr1 hw] at h
      exact absurd h (by simp)
  | succ f ih =>
    intro s a b s' tr h
    rcases hw : waitPass env TIMEOUT_SECONDS s with ⟨res, s1, tr1⟩
    cases res with
    | finished r =>
      rw [wait_for_result_finished_eq env (f + 1) s s1 r tr1 hw] at h
      simp only [Option.some.injEq, Prod.mk.injEq] at h
      refine Or.inl ⟨r, ?_, ?_, waitPass_finished_status env TIMEOUT_SECONDS s r s1 tr1 hw⟩
      · exact h.1.1.symm
      · exact h.1.2.symm
    | timeout =>
      rw [wait_for_result_timeout_eq env (f + 1) s s1 tr1 hw] at h
      simp only [Option.some.injEq, Prod.mk.injEq] at h
      exact Or.inr ⟨h.1.1.symm, h.1.2.symm⟩
    | unauth =>
      rw [wait_for_result_unauth_succ_eq env f s s1 tr1 hw] at h
      rcases hv : wait_for_result env f
          { s1 with token := env.refreshTok s1.token,
                    clientToken := env.refreshTok s1.token } with _ | ⟨⟨a2, b2⟩, s3, tr2⟩
      · rw [hv] at h
        exact absurd h (by simp)
      · rw [hv] at h
        simp only [Option.some.injEq, Prod.mk.injEq] at h
        obtain ⟨⟨ha, hb⟩, _, _⟩ := h
        rw [← ha, ← hb]
        exact ih _ a2 b2 s3 tr2 hv

/-! ## `execute` path equations -/

/-- The update record that `_store_error` writes on the failure paths of
`execute` (which always pass `status=TaskStatus.failed`). -/
def errUpdate (err : String) : TaskUpdate :=
  { status := TaskStatus.failed, error := some err, result := none }

/-- The update record that `_store_result` writes on the success path. -/
def resUpdate (r : TaskResultDTO) : TaskUpdate :=
  { status := r.status, error := r.error, result := some r.result }

theorem execute_runfail_eq (env : Env) (fr fw tid : Nat) (dto : TaskCreateDTO)
    (s : OrchState) (a : Option Nat) (err : String) (s1 : OrchState) (tr1 : List Effect)
    (h : runLoop env fr s = some ((a, some err), s1, tr1)) :
    execute env fr fw tid dto s =
      some ({ s1 with task := applyUpdate s1.task (errUpdate err) },
        tr1 ++ Effect.persist tid (errUpdate err) ::
          send_webhook tid (taskToResultDTO (applyUpdate s1.task (errUpdate err)))
            dto.webhook_url) := by
  simp [execute, h, store_error, errUpdate]

theorem execute_waitfail_eq (env : Env) (fr fw tid : Nat) (dto : TaskCreateDTO)
    (s : OrchState) (a : Option Nat) (s1 : OrchState) (tr1 : List Effect)
    (c : Option TaskResultDTO) (err : String) (s2 : OrchState) (tr2 : List Effect)
    (h1 : runLoop env fr s = some ((a, none), s1, tr1))
    (h2 : wait_for_result env fw s1 = some ((c, some err), s2, tr2)) :
    execute env fr fw tid dto s =
      some ({ s2 with task := applyUpdate s2.task (errUpdate err) },
        tr1 ++ tr2 ++ Effect.persist tid (errUpdate err) ::
          send_webhook tid (taskToResultDTO (applyUpdate s2.task (errUpdate err)))
            dto.webhook_url) := by
  simp [execute, h1, h2, store_error, errUpdate]

theorem execute_finish_eq (env : Env) (fr fw tid : Nat) (dto : TaskCreateDTO)
    (s : OrchState) (a : Option Nat) (s1 : OrchState) (tr1 : List Effect)
    (r : TaskResultDTO) (s2 : OrchState) (tr2 : List Effect)
    (h1 : runLoop env fr s = some ((a, none), s1, tr1))
    (h2 : wait_for_result env fw s1 = some ((some r, none), s2, tr2)) :
    execute env fr fw tid dto s =
      some ({ s2 with task := applyUpdate s2.task (resUpdate r) },
        tr1 ++ tr2 ++ Effect.persist tid (resUpdate r) ::
          send_webhook tid (taskToResultDTO (applyUpdate s2.task (resUpdate r)))
            dto.webhook_url) := by
  simp [execute, h1, h2, store_result, resUpdate]

/-! ## Decomposition of `execute` traces -/

theorem send_webhook_all (tid : Nat) (r : TaskResultDTO) (url : Option String) :
    (send_webhook tid r url).all isWebhookE = true := by
  cases url <;> simp [send_webhook, isWebhookE]

theorem send_webhook_cases (tid : Nat) (r : TaskResultDTO) (url : Option String) :
    send_webhook tid r url = [] ∨
      ∃ u body, send_webhook tid r url = [Effect.webhook u body] := by
  cases url with
  | none => exact Or.inl rfl
  | some u => exact Or.inr ⟨u, _, rfl⟩

theorem all_imp (p q : Effect → Bool) (hpq : ∀ e, p e = true → q e = true) :
    ∀ tr : List Effect, tr.all p = true → tr.all q = true := by
  intro tr htr
  rw [List.all_eq_true] at htr ⊢
  exact fun e he => hpq e (htr e he)

theorem runwaitE_not_persist (e : Effect) (h : (isRunE e || isWaitE e) = true) :
    isPersistE e = false := by
  rcases Bool.or_eq_true_iff.mp h with h' | h'
  · exact runE_not_persist e h'
  · exact waitE_not_persist e h'

theorem runwaitE_not_webhook (e : Effect) (h : (isRunE e || isWaitE e) = true) :
    isWebhookE e = false := by
  rcases Bool.or_eq_true_iff.mp h with h' | h'
  · exact runE_not_webhook e h'
  · exact waitE_not_webhook e h'

theorem webhookE_not_persist (e : Effect) (h : isWebhookE e = true) :
    isPersistE e = false := by
  cases e <;> simp_all [isWebhookE, isPersistE]

/-- Every run of `execute` that terminates decomposes as: collaborator calls
with no persistence and no webhook, then exactly one persistence write, then
the optional webhook — and the write is either an error write (status failed,
`result` field unset) or the success write of a mapped result with status
finished. -/
theorem execute_decomp (env : Env) (fr fw tid : Nat) (dto : TaskCreateDTO) (s s' : OrchState)
    (TR : List Effect) (h : execute env fr fw tid dto s = some (s', TR)) :
    ∃ (tr0 : List Effect) (u : TaskUpdate) (t : Task),
      TR = tr0 ++ Effect.persist tid u :: send_webhook tid (taskToResultDTO t) dto.webhook_url ∧
      tr0.all (fun e => isRunE e || isWaitE e) = true ∧
      ((u.status = TaskStatus.failed ∧ u.result = none) ∨
        (u.status = TaskStatus.finished ∧ ∃ r : TaskResultDTO, u = resUpdate r)) := by
  rcases hR : runLoop env fr s with _ | ⟨⟨a, b⟩, s1, tr1⟩
  · rw [show execute env fr fw tid dto s = none from by simp [execute, hR]] at h
    exact absurd h (by simp)
  · have hall1 := runLoop_all_run env fr s (a, b) s1 tr1 hR
    cases b with
    | some err =>
      rw [execute_runfail_eq env fr fw tid dto s a err s1 tr1 hR] at h
      simp only [Option.some.injEq, Prod.mk.injEq] at h
      refine ⟨tr1, errUpdate err, applyUpdate s1.task (errUpdate err), h.2.symm, ?_, ?_⟩
      · exact all_imp isRunE _ (fun e he => by simp [he]) tr1 hall1
      · exact Or.inl ⟨rfl, rfl⟩
    | none =>
      rcases hW : wait_for_result env fw s1 with _ | ⟨⟨c, d⟩, s2, tr2⟩
      · rw [show execute env fr fw tid dto s = none from by simp [execute, hR, hW]] at h
        exact absurd h (by simp)
      · have hall2 := wait_for_result_all_wait env fw s1 (c, d) s2 tr2 hW
        have hallapp : (tr1 ++ tr2).all (fun e => isRunE e || isWaitE e) = true := by
          rw [List.all_append, Bool.and_eq_true]
          exact ⟨all_imp isRunE _ (fun e he => by simp [he]) tr1 hall1,
            all_imp isWaitE _ (fun e he => by simp [he]) tr2 hall2⟩
        cases d with
        | some err =>
          rw [execute_waitfail_eq env fr fw tid dto s a s1 tr1 c err s2 tr2 hR hW] at h
          simp only [Option.some.injEq, Prod.mk.injEq] at h
          refine ⟨tr1 ++ tr2, errUpdate err, applyUpdate s2.task (errUpdate err), ?_, hallapp,
            Or.inl ⟨rfl, rfl⟩⟩
          rw [← h.2, List.append_assoc]
        | none =>
          rcases wait_for_result_shape env fw s1 c none s2 tr2 hW with ⟨r, hc, _, hrs⟩ | ⟨_, hbad⟩
          · rw [hc] at hW
            rw [execute_finish_eq env fr fw tid dto s a s1 tr1 r s2 tr2 hR hW] at h
            simp only [Option.some.injEq, Prod.mk.injEq] at h
            refine ⟨tr1 ++ tr2, resUpdate r, applyUpdate s2.task (resUpdate r), ?_, hallapp,
              Or.inr ⟨by simp [resUpdate, hrs], r, rfl⟩⟩
            rw [← h.2, List.append_assoc]
          · exact absurd hbad (by simp)

/-- The first effect of any terminating `_run` is the start call issued with
the credential currently installed in the runner client. -/
theorem runLoop_head (env : Env) (fuel : Nat) (s : OrchState)
    (ret : Option Nat × Option String) (s' : OrchState) (tr : List Effect)
    (h : runLoop env fuel s = some (ret, s', tr)) :
    tr.head? = some (Effect.startCall s.clientToken) := by
  cases hA : runAttempt env s with
  | done ret' =>
    rw [runLoop_done_eq env fuel s ret' hA] at h
    simp only [Option.some.injEq, Prod.mk.injEq] at h
    rw [← h.2.2]
    rfl
  | unauthorized =>
    cases fuel with
    | zero =>
      rw [runLoop_unauth_zero_eq env s hA] at h
      exact absurd h (by simp)
    | succ f =>
      rw [runLoop_unauth_succ_eq env f s hA] at h
      rcases hr : runLoop env f
          { s with startIdx := s.startIdx + 1, token := env.refreshTok s.token,
                   clientToken := env.refreshTok s.token } with _ | ⟨ret2, s3, tr2⟩
      · rw [hr] at h
        exact absurd h (by simp)
      · rw [hr] at h
        simp only [Option.some.injEq, Prod.mk.injEq] at h
        rw [← h.2.2]
        rfl

/-- Under oracles that never report unauthorized and never map to `finished`,
one pass of the poll loop uses its entire iteration budget: `n` sleeps, `n`
polls, strictly alternating, ending in timeout. -/
theorem waitPass_timeout_full (env : Env)
    (hnu : ∀ k, env.polls k ≠ PollOutcome.unauthorized)
    (hnf : ∀ k r, env.polls k = PollOutcome.ok r → r.status ≠ TaskStatus.finished) :
    ∀ (n : Nat) (s : OrchState), ∃ s1 tr, waitPass env n s = (PassRes.timeout, s1, tr) ∧
      tr.countP isSleepE = n ∧ tr.countP isPollE = n ∧ isPollTrace tr = true := by
  intro n
  induction n with
  | zero => exact fun s => ⟨s, [], rfl, rfl, rfl, rfl⟩
  | succ n ih =>
    intro s
    rcases hp : env.polls s.pollIdx with r | _
    · have hf := hnf s.pollIdx r hp
      obtain ⟨s1, tr, heq, hsl, hpl, hsh⟩ := ih { s with pollIdx := s.pollIdx + 1 }
      refine ⟨s1, Effect.sleep :: Effect.pollCall s.clientToken :: tr, ?_, ?_, ?_, ?_⟩
      · rw [waitPass_cont_eq env n s r hp hf, heq]
      · simp [List.countP_cons, isSleepE, isPollE, hsl]
      · simp [List.countP_cons, isSleepE, isPollE, hpl]
      · simpa [isPollTrace] using hsh
    · exact absurd hp (hnu s.pollIdx)

/-! ## Concrete scenarios used by the claim witnesses -/

def initTask : Task := { status := TaskStatus.pending, result := some "old", error := none }

def initState : OrchState :=
  { token := 0, clientToken := 0, startIdx := 0, pollIdx := 0, task := initTask }

def runningRes : TaskResultDTO := { status := TaskStatus.running }

def finRes : TaskResultDTO := { status := TaskStatus.finished, result := some "ok" }

def failedRes : TaskResultDTO := { status := TaskStatus.failed, error := some "boom" }

/-- Start succeeds, three `running` polls, then a `finished` poll. -/
def happyEnv : Env where
  startOutcomes := fun _ => StartOutcome.ok 7
  polls := fun k => if k < 3 then PollOutcome.ok runningRes else PollOutcome.ok finRes
  refreshTok := fun t => t + 1

/-- Every poll maps to a `failed` (non-finished) result. -/
def pollFailEnv : Env where
  startOutcomes := fun _ => StartOutcome.ok 7
  polls := fun _ => PollOutcome.ok failedRes
  refreshTok := fun t => t + 1

/-- The very last poll of the first budget raises unauthorized; afterwards the
job keeps running forever — the restarted loop then uses a fresh full budget. -/
def overtimeEnv : Env where
  startOutcomes := fun _ => StartOutcome.ok 0
  polls := fun k =>
    if k = TIMEOUT_SECONDS - 1 then PollOutcome.unauthorized else PollOutcome.ok runningRes
  refreshTok := fun t => t + 1

/-- The first poll raises unauthorized; the next one is finished. -/
def authFailEnv : Env where
  startOutcomes := fun _ => StartOutcome.ok 0
  polls := fun k => if k = 0 then PollOutcome.unauthorized else PollOutcome.ok finRes
  refreshTok := fun t => t + 1

/-- The first start attempt raises unauthorized; the retry succeeds. -/
def startAuthEnv : Env where
  startOutcomes := fun k => if k = 0 then StartOutcome.unauthorized else StartOutcome.ok 9
  polls := fun _ => PollOutcome.ok finRes
  refreshTok := fun t => t + 1

/-- The start call always exceeds its timeout ceiling. -/
def startTimeoutEnv : Env where
  startOutcomes := fun _ => StartOutcome.timeout
  polls := fun _ => PollOutcome.ok runningRes
  refreshTok := fun t => t + 1

/-- Start succeeds but the job never reaches `finished`. -/
def neverDoneEnv : Env where
  startOutcomes := fun _ => StartOutcome.ok 7
  polls := fun _ => PollOutcome.ok runningRes
  refreshTok := fun t => t + 1

/-! ## The claims -/

/-- **C1.** For every invocation of `execute` in which the start phase succeeds
and a subsequent poll maps to status finished before the iteration budget is
exhausted, exactly one persistence write occurs, it carries status=finished and
the mapped result, and exactly one webhook call is made (only when a webhook
URL was supplied) carrying that persisted result. -/
theorem c1_finished_one_persist_one_webhook
    (env : Env) (fr fw tid : Nat) (dto : TaskCreateDTO) (s : OrchState)
    (a : Option Nat) (s1 : OrchState) (tr1 : List Effect)
    (res : TaskResultDTO) (s2 : OrchState) (tr2 : List Effect)
    (h1 : runLoop env fr s = some ((a, none), s1, tr1))
    (h2 : wait_for_result env fw s1 = some ((some res, none), s2, tr2)) :
    res.status = TaskStatus.finished ∧
    (execute env fr fw tid dto s).map
        (fun p => (p.2.filter isPersistE, p.2.filter isWebhookE)) =
      some ([Effect.persist tid (resUpdate res)],
        match dto.webhook_url with
        | none => []
        | some url =>
          [Effect.webhook url
            { id := tid, status := res.status, result := res.result,
              error := res.error }]) := by
  have hst : res.status = TaskStatus.finished := by
    rcases wait_for_result_shape env fw s1 (some res) none s2 tr2 h2 with
      ⟨r, hr, _, hrs⟩ | ⟨hbad, _⟩
    · rw [Option.some.injEq] at hr
      rw [hr]
      exact hrs
    · exact absurd hbad (by simp)
  refine ⟨hst, ?_⟩
  rw [execute_finish_eq env fr fw tid dto s a s1 tr1 res s2 tr2 h1 h2]
  have hp1 : tr1.filter isPersistE = [] :=
    filter_nil_of_all isRunE isPersistE runE_not_persist tr1
      (runLoop_all_run env fr s _ s1 tr1 h1)
  have hp2 : tr2.filter isPersistE = [] :=
    filter_nil_of_all isWaitE isPersistE waitE_not_persist tr2
      (wait_for_result_all_wait env fw s1 _ s2 tr2 h2)
  have hw1 : tr1.filter isWebhookE = [] :=
    filter_nil_of_all isRunE isWebhookE runE_not_webhook tr1
      (runLoop_all_run env fr s _ s1 tr1 h1)
  have hw2 : tr2.filter isWebhookE = [] :=
    filter_nil_of_all isWaitE isWebhookE waitE_not_webhook tr2
      (wait_for_result_all_wait env fw s1 _ s2 tr2 h2)
  cases hu : dto.webhook_url with
  | none =>
    simp [hu, send_webhook, List.filter_append, List.filter_cons, hp1, hp2, hw1, hw2,
      isPersistE, isWebhookE]
  | some url =>
    simp [hu, send_webhook, List.filter_append, List.filter_cons, hp1, hp2, hw1, hw2,
      isPersistE, isWebhookE, taskToResultDTO, applyUpdate, resUpdate]

/-- **C2.** For every invocation of `execute`, the task record is written to a
terminal status at most once, the webhook is attempted at most once, and when
both happen the webhook attempt occurs strictly after the terminal persistence
write, on every control path (run failure, poll failure/timeout, success). -/
theorem c2_single_terminal_write_then_webhook
    (env : Env) (fr fw tid : Nat) (dto : TaskCreateDTO) (s s' : OrchState) (TR : List Effect)
    (h : execute env fr fw tid dto s = some (s', TR)) :
    ∃ (pre : List Effect) (u : TaskUpdate) (tail : List Effect),
      TR = pre ++ Effect.persist tid u :: tail ∧
      (u.status = TaskStatus.failed ∨ u.status = TaskStatus.finished) ∧
      pre.countP isPersistE = 0 ∧ pre.countP isWebhookE = 0 ∧
      tail.countP isPersistE = 0 ∧
      (tail = [] ∨ ∃ url body, tail = [Effect.webhook url body]) := by
  obtain ⟨tr0, u, t, hTR, hall, hstat⟩ := execute_decomp env fr fw tid dto s s' TR h
  refine ⟨tr0, u, send_webhook tid (taskToResultDTO t) dto.webhook_url, hTR, ?_, ?_, ?_, ?_, ?_⟩
  · rcases hstat with ⟨h1, _⟩ | ⟨h1, _⟩
    · exact Or.inl h1
    · exact Or.inr h1
  · exact countP_nil_of_all _ isPersistE runwaitE_not_persist tr0 hall
  · exact countP_nil_of_all _ isWebhookE runwaitE_not_webhook tr0 hall
  · exact countP_nil_of_all isWebhookE isPersistE webhookE_not_persist _
      (send_webhook_all tid _ _)
  · exact send_webhook_cases tid _ _

/-- **C3.** During polling (`_wait_for_result`), only a mapped status of
finished causes an early exit from the loop: for every poll response whose
mapped status is any value other than finished (including failure-like terminal
statuses such as failed), the loop continues to the next iteration — with one
fewer remaining iteration — rather than returning, until the iteration budget
is exhausted. -/
theorem c3_non_finished_never_exits
    (env : Env) (n : Nat) (s : OrchState) (r : TaskResultDTO)
    (hp : env.polls s.pollIdx = PollOutcome.ok r)
    (hs : r.status ≠ TaskStatus.finished) :
    waitPass env (n + 1) s =
      (match waitPass env n { s with pollIdx := s.pollIdx + 1 } with
       | (res, s2, tr) => (res, s2, Effect.sleep :: Effect.pollCall s.clientToken :: tr)) :=
  waitPass_cont_eq env n s r hp hs

/-- **C4.** For every Unauthorized error raised during a poll, the credential
is refreshed, installed into the runner client, and the entire wait loop
restarts from iteration 0 with the full `TIMEOUT_SECONDS` budget rather than
resuming at the current iteration; consequently a single mid-poll auth failure
lets the invocation's polling run for the full `2 * TIMEOUT_SECONDS` sleep
iterations (each iteration additionally spends positive wall-clock time on the
poll call itself, so the wall clock exceeds `2 * TIMEOUT_SECONDS`). -/
theorem c4_poll_unauthorized_restarts_budget
    (env : Env) (fuel : Nat) (s s1 : OrchState) (tr : List Effect)
    (h : waitPass env TIMEOUT_SECONDS s = (PassRes.unauth, s1, tr)) :
    wait_for_result env (fuel + 1) s =
      (match wait_for_result env fuel
          { s1 with token := env.refreshTok s1.token,
                    clientToken := env.refreshTok s1.token } with
       | none => none
       | some (ret, s3, tr2) =>
         some (ret, s3, tr ++ Effect.refreshCall s1.token (env.refreshTok s1.token) :: tr2)) ∧
    (wait_for_result overtimeEnv 1 initState).map
        (fun x => (x.1, x.2.2.countP isSleepE, x.2.2.countP isRefreshE)) =
      some ((none, some "Timeout"), 2 * TIMEOUT_SECONDS, 1) ∧
    TIMEOUT_SECONDS < 2 * TIMEOUT_SECONDS := by
  refine ⟨wait_for_result_unauth_succ_eq env fuel s s1 tr h, by decide, by decide⟩

/-- **C5.** For every Unauthorized error raised by the start call in `_run`,
the credential is refreshed exactly once for that occurrence, the new
credential is installed into the runner client, and the identical start call is
retried with that new credential (the retry's own start call is issued with the
refreshed token) before any failure is reported to the caller. -/
theorem c5_start_unauthorized_refresh_and_retry
    (env : Env) (fuel : Nat) (s : OrchState)
    (h : env.startOutcomes s.startIdx = StartOutcome.unauthorized) :
    runLoop env (fuel + 1) s =
      (match runLoop env fuel
          { s with startIdx := s.startIdx + 1, token := env.refreshTok s.token,
                   clientToken := env.refreshTok s.token } with
       | none => none
       | some (ret, s3, tr) =>
         some (ret, s3,
           Effect.startCall s.clientToken ::
             Effect.refreshCall s.token (env.refreshTok s.token) :: tr)) ∧
    (runLoop env fuel
        { s with startIdx := s.startIdx + 1, token := env.refreshTok s.token,
                 clientToken := env.refreshTok s.token }).map
        (fun x => x.2.2.head?) =
      (runLoop env fuel
        { s with startIdx := s.startIdx + 1, token := env.refreshTok s.token,
                 clientToken := env.refreshTok s.token }).map
        (fun _ => some (Effect.startCall (env.refreshTok s.token))) := by
  constructor
  · exact runLoop_unauth_succ_eq env fuel s (by simp [runAttempt, h])
  · rcases hr : runLoop env fuel
        { s with startIdx := s.startIdx + 1, token := env.refreshTok s.token,
                 clientToken := env.refreshTok s.token } with _ | ⟨ret, s3, tr⟩
    · rfl
    · have := runLoop_head env fuel _ ret s3 tr hr
      simp only [Option.map, this]

/-- **C6.** For every invocation in which the start call exceeds the
`TIMEOUT_SECONDS` ceiling, `_run` reports a timeout error without retrying
(exactly one start call), the persisted task status is failed with an error
message containing "Timeout" (the persisted message is the literal
`"Generation run error: " ++ "Timeout"`), and no poll attempt — and hence no
poll-loop sleep — is ever made in that invocation. -/
theorem c6_start_timeout_failed_no_poll
    (env : Env) (fr fw tid : Nat) (dto : TaskCreateDTO) (s : OrchState)
    (h : env.startOutcomes s.startIdx = StartOutcome.timeout) :
    (execute env fr fw tid dto s).map
        (fun p => (p.2.countP isStartE, p.2.countP isPollE, p.2.countP isSleepE,
          p.2.filter isPersistE)) =
      some (1, 0, 0, [Effect.persist tid (errUpdate "Generation run error: Timeout")]) ∧
    "Generation run error: " ++ "Timeout" = "Generation run error: Timeout" := by
  have hA : runAttempt env s = RunStep.done (none, some "Generation run error: Timeout") := by
    simp [runAttempt, h]
  have hR := runLoop_done_eq env fr s (none, some "Generation run error: Timeout") hA
  rw [execute_runfail_eq env fr fw tid dto s none "Generation run error: Timeout"
    { s with startIdx := s.startIdx + 1 } [Effect.startCall s.clientToken] hR]
  refine ⟨?_, rfl⟩
  cases hu : dto.webhook_url <;>
    simp [hu, send_webhook, List.countP_cons, List.countP_append, List.filter_append,
      List.filter_cons, isStartE, isPollE, isSleepE, isPersistE, errUpdate]

/-- **C7.** `_wait_for_result` performs at most `TIMEOUT_SECONDS` (300)
iterations per pass, each iteration sleeping 1 time unit before querying the
runner for status (the trace is a strict sleep/poll alternation); when no poll
ever raises unauthorized and every poll maps to a non-finished status, the loop
uses exactly `TIMEOUT_SECONDS` sleeps and polls, returns the timeout error, and
the task is persisted with status=failed and error="Timeout". -/
theorem c7_poll_budget_exhaustion_timeout
    (env : Env) (fr fw tid : Nat) (dto : TaskCreateDTO) (s : OrchState) (r0 : Nat)
    (hnu : ∀ k, env.polls k ≠ PollOutcome.unauthorized)
    (hnf : ∀ k r, env.polls k = PollOutcome.ok r → r.status ≠ TaskStatus.finished)
    (hstart : env.startOutcomes s.startIdx = StartOutcome.ok r0) :
    (wait_for_result env fw { s with startIdx := s.startIdx + 1 }).map
        (fun x => (x.1, x.2.2.countP isSleepE, x.2.2.countP isPollE, isPollTrace x.2.2)) =
      some ((none, some "Timeout"), TIMEOUT_SECONDS, TIMEOUT_SECONDS, true) ∧
    (execute env fr fw tid dto s).map (fun p => p.2.filter isPersistE) =
      some [Effect.persist tid (errUpdate "Timeout")] := by
  obtain ⟨s2, tr2, hpass, hsl, hpl, hshape⟩ :=
    waitPass_timeout_full env hnu hnf TIMEOUT_SECONDS { s with startIdx := s.startIdx + 1 }
  have hW := wait_for_result_timeout_eq env fw _ s2 tr2 hpass
  have hA : runAttempt env s = RunStep.done (some r0, none) := by
    simp [runAttempt, hstart]
  have hR := runLoop_done_eq env fr s (some r0, none) hA
  constructor
  · rw [hW]
    simp [hsl, hpl, hshape]
  · rw [execute_waitfail_eq env fr fw tid dto s (some r0) { s with startIdx := s.startIdx + 1 }
      [Effect.startCall s.clientToken] none "Timeout" s2 tr2 hR hW]
    have hf2 : tr2.filter isPersistE = [] :=
      filter_nil_of_all isWaitE isPersistE waitE_not_persist tr2
        (wait_for_result_all_wait env fw _ (none, some "Timeout") s2 tr2 hW)
    cases hu : dto.webhook_url <;>
      simp [hu, send_webhook, List.filter_append, List.filter_cons, hf2, isPersistE,
        errUpdate]

/-- **C8.** For every invocation of `execute` where the supplied webhook URL is
null/absent, no outbound notification call is made on the HTTP client,
regardless of whether the run finished, failed, or timed out. -/
theorem c8_no_url_no_webhook
    (env : Env) (fr fw tid : Nat) (dto : TaskCreateDTO) (s s' : OrchState) (TR : List Effect)
    (hurl : dto.webhook_url = none)
    (h : execute env fr fw tid dto s = some (s', TR)) :
    TR.countP isWebhookE = 0 := by
  obtain ⟨tr0, u, t, hTR, hall, _⟩ := execute_decomp env fr fw tid dto s s' TR h
  rw [hTR, List.countP_append, List.countP_cons,
    countP_nil_of_all _ isWebhookE runwaitE_not_webhook tr0 hall]
  simp [hurl, send_webhook, isWebhookE]

/-- **C9.** Every return value of `_run` and of `_wait_for_result` is a pair in
which exactly one component is present: either a success value with no error,
or an error string with no success value — never both present and never both
absent. -/
theorem c9_exclusive_result_error_pairs
    (envR : Env) (fr : Nat) (sR : OrchState) (a : Option Nat) (b : Option String)
    (sR' : OrchState) (trR : List Effect)
    (envW : Env) (fw : Nat) (sW : OrchState) (c : Option TaskResultDTO) (d : Option String)
    (sW' : OrchState) (trW : List Effect)
    (h1 : runLoop envR fr sR = some ((a, b), sR', trR))
    (h2 : wait_for_result envW fw sW = some ((c, d), sW', trW)) :
    (((∃ r, a = some r) ∧ b = none) ∨ (a = none ∧ ∃ m, b = some m)) ∧
    (((∃ r, c = some r) ∧ d = none) ∨ (c = none ∧ ∃ m, d = some m)) := by
  refine ⟨runLoop_shape envR fr sR a b sR' trR h1, ?_⟩
  rcases wait_for_result_shape envW fw sW c d sW' trW h2 with ⟨r, hr, hd, _⟩ | ⟨hc, hd⟩
  · exact Or.inl ⟨⟨r, hr⟩, hd⟩
  · exact Or.inr ⟨hc, ⟨_, hd⟩⟩

/-- **C10.** On every failure path (start error, request error, timeout, poll
timeout), the persistence update written by the error-storing operation
contains only the status and error fields: every persisted update with status
failed has its `result` field unset, so applying it leaves any stored task's
`result` field unmodified. -/
theorem c10_error_write_leaves_result_untouched
    (env : Env) (fr fw tid : Nat) (dto : TaskCreateDTO) (s s' : OrchState) (TR : List Effect)
    (u : TaskUpdate) (t : Task)
    (h : execute env fr fw tid dto s = some (s', TR))
    (hmem : Effect.persist tid u ∈ TR)
    (hfail : u.status = TaskStatus.failed) :
    u.result = none ∧ (applyUpdate t u).result = t.result := by
  obtain ⟨tr0, u', t', hTR, hall, hstat⟩ := execute_decomp env fr fw tid dto s s' TR h
  rw [hTR] at hmem
  have hu : u = u' := by
    rcases List.mem_append.mp hmem with hin | hin
    · have hp := List.all_eq_true.mp hall _ hin
      exact absurd (runwaitE_not_persist _ hp) (by simp [isPersistE])
    · rcases List.mem_cons.mp hin with heq | hin2
      · rw [Effect.persist.injEq] at heq
        exact heq.2
      · have hp := List.all_eq_true.mp
          (send_webhook_all tid (taskToResultDTO t') dto.webhook_url) _ hin2
        exact absurd (webhookE_not_persist _ hp) (by simp [isPersistE])
  rcases hstat with ⟨_, hres⟩ | ⟨hfin, _⟩
  · rw [hu]
    exact ⟨hres, by simp [applyUpdate, hres]⟩
  · rw [hu] at hfail
    rw [hfail] at hfin
    exact absurd hfin (by decide)

/-! ## Witnesses: each claim theorem applied at a concrete scenario -/

theorem c1_witness :
    finRes.status = TaskStatus.finished ∧
    (execute happyEnv 0 0 42 { params := 0, webhook_url := some "http://x" } initState).map
        (fun p => (p.2.filter isPersistE, p.2.filter isWebhookE)) =
      some ([Effect.persist 42 (resUpdate finRes)],
        match ({ params := 0, webhook_url := some "http://x" } : TaskCreateDTO).webhook_url with
        | none => []
        | some url =>
          [Effect.webhook url
            { id := 42, status := finRes.status, result := finRes.result,
              error := finRes.error }]) :=
  c1_finished_one_persist_one_webhook happyEnv 0 0 42
    { params := 0, webhook_url := some "http://x" } initState (some 7)
    { initState with startIdx := 1 } [Effect.startCall 0] finRes
    { initState with startIdx := 1, pollIdx := 4 }
    [Effect.sleep, Effect.pollCall 0, Effect.sleep, Effect.pollCall 0, Effect.sleep,
      Effect.pollCall 0, Effect.sleep, Effect.pollCall 0]
    (by decide) (by decide)

theorem c2_witness :
    ∃ (pre : List Effect) (u : TaskUpdate) (tail : List Effect),
      [Effect.startCall 0, Effect.sleep, Effect.pollCall 0, Effect.sleep, Effect.pollCall 0,
        Effect.sleep, Effect.pollCall 0, Effect.sleep, Effect.pollCall 0,
        Effect.persist 42 (resUpdate finRes),
        Effect.webhook "http://x"
          { id := 42, status := TaskStatus.finished, result := some "ok", error := none }] =
        pre ++ Effect.persist 42 u :: tail ∧
      (u.status = TaskStatus.failed ∨ u.status = TaskStatus.finished) ∧
      pre.countP isPersistE = 0 ∧ pre.countP isWebhookE = 0 ∧
      tail.countP isPersistE = 0 ∧
      (tail = [] ∨ ∃ url body, tail = [Effect.webhook url body]) :=
  c2_single_terminal_write_then_webhook happyEnv 0 0 42
    { params := 0, webhook_url := some "http://x" } initState
    { token := 0, clientToken := 0, startIdx := 1, pollIdx := 4,
      task := { status := TaskStatus.finished, result := some "ok", error := none } }
    [Effect.startCall 0, Effect.sleep, Effect.pollCall 0, Effect.sleep, Effect.pollCall 0,
      Effect.sleep, Effect.pollCall 0, Effect.sleep, Effect.pollCall 0,
      Effect.persist 42 (resUpdate finRes),
      Effect.webhook "http://x"
        { id := 42, status := TaskStatus.finished, result := some "ok", error := none }]
    (by decide)

theorem c3_witness :
    waitPass pollFailEnv (1 + 1) initState =
      (match waitPass pollFailEnv 1 { initState with pollIdx := initState.pollIdx + 1 } with
       | (res, s2, tr) =>
         (res, s2, Effect.sleep :: Effect.pollCall initState.clientToken :: tr)) :=
  c3_non_finished_never_exits pollFailEnv 1 initState failedRes rfl (by decide)

theorem c4_witness :
    (wait_for_result authFailEnv (0 + 1) initState =
      (match wait_for_result authFailEnv 0
          { token := 1, clientToken := 1, startIdx := 0, pollIdx := 1, task := initTask } with
       | none => none
       | some (ret, s3, tr2) =>
         some (ret, s3, [Effect.sleep, Effect.pollCall 0] ++ Effect.refreshCall 0 1 :: tr2))) ∧
    (wait_for_result overtimeEnv 1 initState).map
        (fun x => (x.1, x.2.2.countP isSleepE, x.2.2.countP isRefreshE)) =
      some ((none, some "Timeout"), 2 * TIMEOUT_SECONDS, 1) ∧
    TIMEOUT_SECONDS < 2 * TIMEOUT_SECONDS :=
  c4_poll_unauthorized_restarts_budget authFailEnv 0 initState
    { token := 0, clientToken := 0, startIdx := 0, pollIdx := 1, task := initTask }
    [Effect.sleep, Effect.pollCall 0] (by decide)

theorem c5_witness :
    (runLoop startAuthEnv (0 + 1) initState =
      (match runLoop startAuthEnv 0
          { token := 1, clientToken := 1, startIdx := 1, pollIdx := 0, task := initTask } with
       | none => none
       | some (ret, s3, tr) =>
         some (ret, s3, Effect.startCall 0 :: Effect.refreshCall 0 1 :: tr))) ∧
    (runLoop startAuthEnv 0
        { token := 1, clientToken := 1, startIdx := 1, pollIdx := 0, task := initTask }).map
        (fun x => x.2.2.head?) =
      (runLoop startAuthEnv 0
        { token := 1, clientToken := 1, startIdx := 1, pollIdx := 0, task := initTask }).map
        (fun _ => some (Effect.startCall 1)) :=
  c5_start_unauthorized_refresh_and_retry startAuthEnv 0 initState (by decide)

theorem c6_witness :
    (execute startTimeoutEnv 3 0 42 { params := 0, webhook_url := some "https://cb" }
        initState).map
        (fun p => (p.2.countP isStartE, p.2.countP isPollE, p.2.countP isSleepE,
          p.2.filter isPersistE)) =
      some (1, 0, 0, [Effect.persist 42 (errUpdate "Generation run error: Timeout")]) ∧
    "Generation run error: " ++ "Timeout" = "Generation run error: Timeout" :=
  c6_start_timeout_failed_no_poll startTimeoutEnv 3 0 42
    { params := 0, webhook_url := some "https://cb" } initState rfl

theorem c7_witness :
    (wait_for_result neverDoneEnv 2 { initState with startIdx := initState.startIdx + 1 }).map
        (fun x => (x.1, x.2.2.countP isSleepE, x.2.2.countP isPollE, isPollTrace x.2.2)) =
      some ((none, some "Timeout"), TIMEOUT_SECONDS, TIMEOUT_SECONDS, true) ∧
    (execute neverDoneEnv 0 2 42 { params := 0, webhook_url := none } initState).map
        (fun p => p.2.filter isPersistE) =
      some [Effect.persist 42 (errUpdate "Timeout")] :=
  c7_poll_budget_exhaustion_timeout neverDoneEnv 0 2 42 { params := 0, webhook_url := none }
    initState 7
    (by intro k; simp [neverDoneEnv])
    (by
      intro k r hk
      simp only [neverDoneEnv] at hk
      cases hk
      decide)
    rfl

theorem c8_witness :
    [Effect.startCall 0, Effect.sleep, Effect.pollCall 0, Effect.sleep, Effect.pollCall 0,
      Effect.sleep, Effect.pollCall 0, Effect.sleep, Effect.pollCall 0,
      Effect.persist 42 (resUpdate finRes)].countP isWebhookE = 0 :=
  c8_no_url_no_webhook happyEnv 0 0 42 { params := 0, webhook_url := none } initState
    { token := 0, clientToken := 0, startIdx := 1, pollIdx := 4,
      task := { status := TaskStatus.finished, result := some "ok", error := none } }
    [Effect.startCall 0, Effect.sleep, Effect.pollCall 0, Effect.sleep, Effect.pollCall 0,
      Effect.sleep, Effect.pollCall 0, Effect.sleep, Effect.pollCall 0,
      Effect.persist 42 (resUpdate finRes)]
    rfl (by decide)

theorem c9_witness :
    (((∃ r, (some 7 : Option Nat) = some r) ∧ (none : Option String) = none) ∨
      ((some 7 : Option Nat) = none ∧ ∃ m, (none : Option String) = some m)) ∧
    (((∃ r, (some finRes : Option TaskResultDTO) = some r) ∧ (none : Option String) = none) ∨
      ((some finRes : Option TaskResultDTO) = none ∧ ∃ m, (none : Option String) = some m)) :=
  c9_exclusive_result_error_pairs happyEnv 0 initState (some 7) none
    { initState with startIdx := 1 } [Effect.startCall 0]
    happyEnv 0 { initState with startIdx := 1 } (some finRes) none
    { initState with startIdx := 1, pollIdx := 4 }
    [Effect.sleep, Effect.pollCall 0, Effect.sleep, Effect.pollCall 0, Effect.sleep,
      Effect.pollCall 0, Effect.sleep, Effect.pollCall 0]
    (by decide) (by decide)

theorem c10_witness :
    (errUpdate "Generation run error: Timeout").result = none ∧
    (applyUpdate initTask (errUpdate "Generation run error: Timeout")).result =
      initTask.result :=
  c10_error_write_leaves_result_untouched startTimeoutEnv 0 0 42
    { params := 0, webhook_url := none } initState
    { token := 0, clientToken := 0, startIdx := 1, pollIdx := 0,
      task := { status := TaskStatus.failed, result := some "old", error := some "Generation run error: Timeout" } }
    [Effect.startCall 0, Effect.persist 42 (errUpdate "Generation run error: Timeout")]
    (errUpdate "Generation run error: Timeout") initTask
    (by decide) (by decide) rfl

end RunTask
